import Mathlib

/-!
Verification development for the taskmaster repository: a shallow embedding
of the Task lifecycle (src/src/core/lib.rs), the client/daemon Action
protocol (src/taskmasterd/src/action.rs, src/taskmasterd/src/api/action.rs),
the control-socket responder (src/taskmasterd/src/api/mod.rs), the
configuration loader (src/taskmasterd/src/core/configuration.rs) and the
logger (src/taskmasterd/src/logger.rs), together with theorems settling the
specification claims about them.
-/

namespace Taskmaster

/-- Modelled from the spec: the State enumeration of the core library crate.
src/src/core/lib.rs imports it from its `data` module, whose source is
absent; the variants follow the spec's State list (`STOPPED`, `STARTING`,
`RUNNING`, `BACKOFF`, `EXITED`, `FATAL`, `UNKNOWN`) plus the `REGISTERED`
initial state that `Task::new` uses.  The payloads (timestamps, exit code,
reason) play no role in any claim and are elided. -/
inductive State
  | REGISTERED
  | STOPPED
  | STARTING
  | RUNNING
  | BACKOFF
  | EXITED
  | FATAL
  | UNKNOWN
deriving DecidableEq, Repr

/-- `StopSignal` from src/taskmasterd/src/core/configuration.rs. -/
inductive StopSignal
  | TERM
  | HUP
  | INT
  | QUIT
  | KILL
  | USR1
  | USR2
  | OTHER (custom : String)
deriving DecidableEq, Repr

/-- `AutoRestart` from src/taskmasterd/src/core/configuration.rs
(serde names: "true", "false", "unexpected"). -/
inductive AutoRestart
  | True
  | False
  | Unexpected
deriving DecidableEq, Repr

/-- `Configuration` from src/taskmasterd/src/core/configuration.rs.
The core library's `crate::data::Configuration` (source absent) is used by
Task with the same field names (`cmd`, `working_dir`, `env`, `stdout`,
`stderr`, `start_retries`), so one structure serves both.
`env` is a `BTreeMap<String, String>`, modelled as an association list. -/
structure Configuration where
  cmd : String
  num_procs : Nat
  umask : Nat
  working_dir : Option String
  auto_start : Bool
  auto_restart : AutoRestart
  exit_codes : List Int
  start_retries : Nat
  start_time : Nat
  stop_signal : StopSignal
  stop_time : Nat
  stdout : Option String
  stderr : Option String
  env : List (String × String)
deriving DecidableEq, Repr

/-- `Configuration::default()` from src/taskmasterd/src/core/configuration.rs. -/
def Configuration.default : Configuration where
  cmd := ""
  num_procs := 1
  umask := 0o022
  working_dir := none
  auto_start := true
  auto_restart := AutoRestart.Unexpected
  exit_codes := [0]
  start_retries := 3
  start_time := 1
  stop_signal := StopSignal.TERM
  stop_time := 10
  stdout := none
  stderr := none
  env := []

/-- The `Stdio` value handed to the spawned child: `Stdio::null()` for a
discarded stream, or the opened append-mode file. -/
inductive Stdio
  | nullDev
  | fileDev
deriving DecidableEq, Repr

/-- Outcomes of the OS calls one `Task::run` invocation performs:
the `open_file` result for the stderr path, the `open_file` result for the
stdout path (each consulted only when the corresponding path is configured),
and the `Command::spawn` result (`Ok` carries the OS child, modelled as an
opaque id; `Err` carries the OS error rendered to a string). -/
structure RunEnv where
  stderrOpen : Except String Unit
  stdoutOpen : Except String Unit
  spawn : Except String Nat
deriving Repr

/-- `Task` from src/src/core/lib.rs.  The `ErrorLog` logger (module absent
from the sources; the spec specifies only the call contract of the log sink)
is modelled as the list of messages handed to it, and `ErrorLog::log` as
recording the message and returning it unchanged.  `_started_at` is the
constant string "time" in the source. -/
structure Task where
  configuration : Configuration
  state : State
  restarts_left : Nat
  child : Option Nat
  started_at : String
  logger : List String
deriving DecidableEq, Repr

/-- `Task::new` from src/src/core/lib.rs. -/
def Task.new (configuration : Configuration) : Task where
  configuration := configuration
  state := State.REGISTERED
  restarts_left := configuration.start_retries
  child := none
  started_at := "time"
  logger := []

/-- `Task::setup_stream` from src/src/core/lib.rs: a configured path is
opened (append/create), an absent path yields `Stdio::null()`.
`openResult` is the OS outcome of `open_file` on the configured path. -/
def Task.setup_stream (openResult : Except String Unit) (streamType : Option String) : Except String Stdio :=
  match streamType with
  | some _ =>
    match openResult with
    | Except.ok _ => Except.ok Stdio.fileDev
    | Except.error e => Except.error e
  | none => Except.ok Stdio.nullDev

/-- `Task::setup_child_process` from src/src/core/lib.rs: on a successful
spawn the child handle is installed and the state becomes STARTING; on a
spawn error the error is logged, the state becomes FATAL, the child field is
left as it was, and the logged message is returned as the error. -/
def Task.setup_child_process (t : Task) (_stderrS _stdoutS : Stdio) (spawnRes : Except String Nat) : Task × Except String Unit :=
  match spawnRes with
  | Except.ok child =>
    ({ t with child := some child, state := State.STARTING }, Except.ok ())
  | Except.error err =>
    ({ t with state := State.FATAL, logger := t.logger ++ [err] }, Except.error err)

/-- `Task::run` from src/src/core/lib.rs: set up the stderr stream, then the
stdout stream — a failure of either logs the error, sets FATAL and returns
the error without attempting a spawn — then spawn the child process. -/
def Task.run (t : Task) (env : RunEnv) : Task × Except String Unit :=
  match Task.setup_stream env.stderrOpen t.configuration.stderr with
  | Except.error e =>
    ({ t with state := State.FATAL, logger := t.logger ++ [e] }, Except.error e)
  | Except.ok stderrS =>
    match Task.setup_stream env.stdoutOpen t.configuration.stdout with
    | Except.error e =>
      ({ t with state := State.FATAL, logger := t.logger ++ [e] }, Except.error e)
    | Except.ok stdoutS =>
      Task.setup_child_process t stderrS stdoutS env.spawn

/-- `Task::stop` from src/src/core/lib.rs: the body is empty. -/
def Task.stop (t : Task) : Task :=
  t

/-- `Task::get_state` from src/src/core/lib.rs. -/
def Task.get_state (t : Task) : State :=
  t.state

/-- One invocation of a public state-changing Task operation, with the OS
outcomes a `run` call observes. -/
inductive TaskOp
  | run (env : RunEnv)
  | stop
deriving Repr

/-- Apply one public operation to a Task (the Task component of the result;
`run` additionally returns a `Result` to its caller). -/
def Task.applyOp (t : Task) (op : TaskOp) : Task :=
  match op with
  | TaskOp.run env => (t.run env).1
  | TaskOp.stop => t.stop

/-- Apply a sequence of public operations in order. -/
def Task.applyOps (t : Task) (ops : List TaskOp) : Task :=
  ops.foldl Task.applyOp t

/-- The claimed handle/state invariant: a live OS child handle is present
iff the State is STARTING or RUNNING. -/
def handleStateInv (t : Task) : Prop :=
  t.child.isSome = true ↔ (t.state = State.STARTING ∨ t.state = State.RUNNING)

instance (t : Task) : Decidable (handleStateInv t) := by
  unfold handleStateInv
  infer_instance

/-- `safeRun t ops = true` iff along the execution of `ops` from `t`, every
`run` is invoked on a Task with no live child handle. -/
def safeRun (t : Task) : List TaskOp → Bool
  | [] => true
  | op :: rest =>
    (match op with
     | TaskOp.run _ => t.child.isNone
     | TaskOp.stop => true) && safeRun (t.applyOp op) rest

/-! ## Monitor retry rule

The Monitor (referenced as `crate::monitor::Monitor` by the responder) is
not among the sources; its retry behaviour is modelled from the spec. -/

/-- The Monitor's view of one supervised task: its current State and the
remaining retry budget (`_restarts_left`). -/
structure MTask where
  state : State
  restarts_left : Nat
deriving DecidableEq, Repr

/-- Modelled from the spec: the Monitor's handling of one premature exit
(exit before min-uptime) of a task in STARTING — the `Monitor` module is
absent from the sources.  Each failed start consumes one unit of retry
budget; when the budget is exhausted the task goes FATAL, otherwise it goes
BACKOFF and is immediately re-attempted (STARTING).  Returns the task and
the states passed through, in order. -/
def onPrematureExit (t : MTask) : MTask × List State :=
  if t.restarts_left = 0 then
    ({ state := State.FATAL, restarts_left := 0 }, [State.FATAL])
  else
    ({ state := State.STARTING, restarts_left := t.restarts_left - 1 },
     [State.BACKOFF, State.STARTING])

/-- Modelled from the spec: the Monitor's handling of a start that stays
alive through min-uptime — the task becomes RUNNING and its retry budget is
reset to the spec's configured value. -/
def onStayedUp (specBudget : Nat) (_t : MTask) : MTask :=
  { state := State.RUNNING, restarts_left := specBudget }

/-- The states a task passes through under `n` consecutive premature
exits. -/
def failuresTrace (t : MTask) : Nat → List State
  | 0 => []
  | n + 1 =>
    let r := onPrematureExit t
    r.2 ++ failuresTrace r.1 n

/-! ## Control-socket responder (src/taskmasterd/src/api/mod.rs)

The daemon-side `Action` (src/taskmasterd/src/api/action.rs). -/

/-- `Action` from src/taskmasterd/src/api/action.rs (the daemon side). -/
inductive DAction
  | Config (name : String)
  | Update (name : Option String)
  | Status (name : Option String)
  | Start (name : String) (replica : Option Nat)
  | Stop (name : String) (replica : Option Nat)
  | Shutdown
deriving DecidableEq, Repr

/-- The fixed reply `Responder::handle_message` writes when the received
bytes do not decode to an `Action`. -/
def unknownActionAnswer : String :=
  "Error! Unknown action"

/-- `Responder::handle_message` from src/taskmasterd/src/api/mod.rs: decode
the received data into an `Action` (via serde_json, an external library,
passed here as the `decode` parameter) and reply with the Monitor's answer
(`answer`, the absent Monitor's dispatch), or with the fixed
unknown-action reply on a decode failure. -/
def handle_message (decode : String → Except String DAction) (answer : DAction → String) (receivedData : String) : String :=
  match decode receivedData with
  | Except.ok action => answer action
  | Except.error _ => unknownActionAnswer

/-- One iteration of `Responder::listen`'s accept loop: a connection is
accepted and read (`accepted`, carrying the read outcome), or the accept
itself fails. -/
inductive StreamEvent
  | accepted (readResult : Except String String)
  | acceptError (e : String)

/-- `Responder::listen` from src/taskmasterd/src/api/mod.rs, as the list of
replies written across a sequence of connections: a failed accept or a
failed read is logged and produces no reply, a zero-byte read is skipped
(`continue`), and any other read is handled by `handle_message`. -/
def listen (decode : String → Except String DAction) (answer : DAction → String) : List StreamEvent → List String
  | [] => []
  | StreamEvent.accepted (Except.ok data) :: rest =>
    if data.length = 0 then listen decode answer rest
    else handle_message decode answer data :: listen decode answer rest
  | StreamEvent.accepted (Except.error _) :: rest => listen decode answer rest
  | StreamEvent.acceptError _ :: rest => listen decode answer rest

/-! ## Client/daemon Action serialization (C6)

Both `Action` enums carry `derive(Serialize, Deserialize)`; serde_json uses
the externally-tagged representation for enums.  The JSON data values
exchanged on the socket are modelled by `Json`. -/

/-- A JSON value, as produced by serde_json for the two `Action` enums. -/
inductive Json
  | null
  | str (s : String)
  | num (n : Nat)
  | arr (elems : List Json)
  | obj (fields : List (String × Json))
deriving Repr

/-- `Action` from src/taskmasterd/src/action.rs (the client side). -/
inductive CAction
  | Config (name : String)
  | Maintail (lines : Option Nat)
  | Update (name : Option String)
  | Status (name : Option String)
  | Start (target : Option (String × Option Nat))
  | Stop (target : Option (String × Option Nat))
  | Shutdown
deriving DecidableEq, Repr

/-- serde serialization of an `Option<String>` payload. -/
def serializeOptStr : Option String → Json
  | none => Json.null
  | some s => Json.str s

/-- serde serialization of the client's `Option<(String, Option<usize>)>`
Start/Stop payload. -/
def serializeTarget : Option (String × Option Nat) → Json
  | none => Json.null
  | some (n, none) => Json.arr [Json.str n, Json.null]
  | some (n, some i) => Json.arr [Json.str n, Json.num i]

/-- serde_json serialization of the client `Action` (externally tagged:
a unit variant is its name, a newtype/tuple variant is a one-field
object). -/
def CAction.serialize : CAction → Json
  | CAction.Config s => Json.obj [("Config", Json.str s)]
  | CAction.Maintail none => Json.obj [("Maintail", Json.null)]
  | CAction.Maintail (some n) => Json.obj [("Maintail", Json.num n)]
  | CAction.Update o => Json.obj [("Update", serializeOptStr o)]
  | CAction.Status o => Json.obj [("Status", serializeOptStr o)]
  | CAction.Start t => Json.obj [("Start", serializeTarget t)]
  | CAction.Stop t => Json.obj [("Stop", serializeTarget t)]
  | CAction.Shutdown => Json.str "Shutdown"

/-- serde deserialization of an `Option<String>` payload. -/
def deserializeOptStr : Json → Option (Option String)
  | Json.null => some none
  | Json.str s => some (some s)
  | _ => none

/-- serde deserialization of the daemon's `(String, Option<usize>)`
Start/Stop tuple-variant payload: a two-element sequence is required. -/
def deserializeNameIdx : Json → Option (String × Option Nat)
  | Json.arr [Json.str n, Json.null] => some (n, none)
  | Json.arr [Json.str n, Json.num i] => some (n, some i)
  | _ => none

/-- serde_json deserialization of the daemon `Action` (externally tagged):
only the daemon's variant names are accepted, and Start/Stop demand the
two-element tuple payload. -/
def DAction.deserialize : Json → Option DAction
  | Json.str "Shutdown" => some DAction.Shutdown
  | Json.obj [("Config", Json.str s)] => some (DAction.Config s)
  | Json.obj [("Update", v)] => (deserializeOptStr v).map DAction.Update
  | Json.obj [("Status", v)] => (deserializeOptStr v).map DAction.Status
  | Json.obj [("Start", v)] =>
    (deserializeNameIdx v).map fun p => DAction.Start p.1 p.2
  | Json.obj [("Stop", v)] =>
    (deserializeNameIdx v).map fun p => DAction.Stop p.1 p.2
  | _ => none

/-- The daemon action a client action semantically denotes, when the daemon
can represent it: `Maintail` and the all-tasks (`none`-target) forms of
`Start`/`Stop` have no daemon counterpart. -/
def CAction.toDaemon : CAction → Option DAction
  | CAction.Config s => some (DAction.Config s)
  | CAction.Maintail _ => none
  | CAction.Update o => some (DAction.Update o)
  | CAction.Status o => some (DAction.Status o)
  | CAction.Start none => none
  | CAction.Start (some (n, i)) => some (DAction.Start n i)
  | CAction.Stop none => none
  | CAction.Stop (some (n, i)) => some (DAction.Stop n i)
  | CAction.Shutdown => some DAction.Shutdown

/-! ## Configuration loading and validation
(src/taskmasterd/src/core/configuration.rs) -/

/-- A `validator::ValidationError`: a code, and an optional custom
message. -/
structure ValidationError where
  code : String
  message : Option String
deriving DecidableEq, Repr

/-- `validate_umask` from src/taskmasterd/src/core/configuration.rs: the
mask must satisfy `value & 0o777 == value`; otherwise a `ValidationError`
with code "Invalid umask" (and no message) is produced. -/
def validate_umask (value : Nat) : Except ValidationError Unit :=
  if ¬ (value &&& 0o777 = value) then
    Except.error { code := "Invalid umask", message := none }
  else
    Except.ok ()

/-- The `#[validate(...)]` rules of `Configuration`, as the list of
(field, error) pairs `validator::Validate::validate` reports:
`cmd` must have length ≥ 1 (custom message "cmd: can't be empty"),
`num_procs` must be in range min = 1 (code "range", no message), and
`umask` is checked by `validate_umask`.  `field_errors()` iterates a
HashMap, so when several fields fail at once the reported order is not
fixed by the source; the order below is only exercised on configurations
with a single failing field. -/
def Configuration.validate (c : Configuration) : List (String × ValidationError) :=
  (if c.cmd.length < 1 then
    [("cmd", { code := "length", message := some "cmd: can't be empty" })]
  else []) ++
  (if c.num_procs < 1 then
    [("num_procs", { code := "range", message := none })]
  else []) ++
  (match validate_umask c.umask with
   | Except.error e => [("umask", e)]
   | Except.ok _ => [])

/-- Rust's `{:?}` rendering of a string: wrapped in double quotes (none of
the strings it is applied to here contain characters that `{:?}` would
escape). -/
def rustDebugStr (s : String) : String :=
  "\"" ++ s ++ "\""

/-- The error string `Configuration::from_yml` builds from the first
reported field error of task `key`: the custom message when present,
otherwise the error code, rendered with `{:?}`. -/
def formatFieldError (key : String) (e : ValidationError) : String :=
  match e.message with
  | some m => key ++ ": " ++ rustDebugStr m
  | none => key ++ ": " ++ rustDebugStr e.code

/-- The validation loop of `Configuration::from_yml`: tasks are visited in
order (the parsed `BTreeMap` iterates keys in sorted order); the first
task with a validation error aborts the whole load with the formatted
error. -/
def validateAll : List (String × Configuration) → Except String Unit
  | [] => Except.ok ()
  | (key, c) :: rest =>
    match c.validate with
    | [] => validateAll rest
    | (_f, e) :: _ => Except.error (formatFieldError key e)

/-- One task record as it appears in the YAML file: every field is
optional (`#[serde(default)]` on `Configuration`), and `umask` is written
as an octal string. -/
structure YamlTaskRecord where
  cmd : Option String
  num_procs : Option Nat
  umask : Option String
  working_dir : Option String
  auto_start : Option Bool
  auto_restart : Option AutoRestart
  exit_codes : Option (List Int)
  start_retries : Option Nat
  start_time : Option Nat
  stop_signal : Option StopSignal
  stop_time : Option Nat
  stdout : Option String
  stderr : Option String
  env : Option (List (String × String))
deriving DecidableEq, Repr

/-- The record with every field omitted. -/
def YamlTaskRecord.empty : YamlTaskRecord where
  cmd := none
  num_procs := none
  umask := none
  working_dir := none
  auto_start := none
  auto_restart := none
  exit_codes := none
  start_retries := none
  start_time := none
  stop_signal := none
  stop_time := none
  stdout := none
  stderr := none
  env := none

/-- Rust's `str::trim` (used by `deserialize_string_and_trim` and
`deserialize_option_string_and_trim`): remove leading and trailing
whitespace. -/
def trimString (s : String) : String :=
  String.mk (((s.data.dropWhile Char.isWhitespace).reverse.dropWhile Char.isWhitespace).reverse)

/-- `u32::from_str_radix(s, 8)` on the umask strings: a non-empty string of
octal digits (sign and overflow handling of the Rust function are not
exercised by the configuration values modelled here). -/
def parseOctal? (s : String) : Option Nat :=
  if s.isEmpty then none
  else
    s.toList.foldlM
      (fun acc ch =>
        if '0' ≤ ch ∧ ch ≤ '7' then
          some (acc * 8 + (ch.toNat - '0'.toNat))
        else none)
      0

/-- serde deserialization of one task record into a `Configuration`:
omitted fields take the `Configuration::default()` value (`#[serde(default)]`
on the struct), `cmd`/`working_dir`/`stdout`/`stderr` are trimmed
(`deserialize_string_and_trim` / `deserialize_option_string_and_trim`), and
`umask` is parsed as octal by `deserialize_umask`, failing with the
"is not a valid umask." message on a non-octal string. -/
def deserializeConfiguration (r : YamlTaskRecord) : Except String Configuration :=
  match r.umask with
  | some s =>
    match parseOctal? s with
    | some v => Except.ok (deserializeWith r v)
    | none => Except.error (rustDebugStr s ++ " is not a valid umask.")
  | none => Except.ok (deserializeWith r Configuration.default.umask)
where
  /-- Fill the remaining fields, given the already-resolved umask value. -/
  deserializeWith (r : YamlTaskRecord) (umaskVal : Nat) : Configuration :=
    { cmd := (r.cmd.map trimString).getD Configuration.default.cmd
      num_procs := r.num_procs.getD Configuration.default.num_procs
      umask := umaskVal
      working_dir := (r.working_dir.map fun s => some (trimString s)).getD Configuration.default.working_dir
      auto_start := r.auto_start.getD Configuration.default.auto_start
      auto_restart := r.auto_restart.getD Configuration.default.auto_restart
      exit_codes := r.exit_codes.getD Configuration.default.exit_codes
      start_retries := r.start_retries.getD Configuration.default.start_retries
      start_time := r.start_time.getD Configuration.default.start_time
      stop_signal := r.stop_signal.getD Configuration.default.stop_signal
      stop_time := r.stop_time.getD Configuration.default.stop_time
      stdout := (r.stdout.map fun s => some (trimString s)).getD Configuration.default.stdout
      stderr := (r.stderr.map fun s => some (trimString s)).getD Configuration.default.stderr
      env := r.env.getD Configuration.default.env }

/-- The serde_yaml deserialization of the whole document: each record in
document order; the first deserialization error aborts the parse. -/
def deserializeAll : List (String × YamlTaskRecord) → Except String (List (String × Configuration))
  | [] => Except.ok []
  | (key, r) :: rest =>
    match deserializeConfiguration r with
    | Except.error e => Except.error e
    | Except.ok c =>
      match deserializeAll rest with
      | Except.error e => Except.error e
      | Except.ok cs => Except.ok ((key, c) :: cs)

/-- `Configuration::from_yml` from src/taskmasterd/src/core/configuration.rs,
starting from the parsed YAML records (file IO and YAML surface syntax are
external): deserialize every record, then run the validation loop; any
failure aborts the whole load, otherwise the full mapping is returned. -/
def from_yml (tasks : List (String × YamlTaskRecord)) : Except String (List (String × Configuration)) :=
  match deserializeAll tasks with
  | Except.error e => Except.error e
  | Except.ok cs =>
    match validateAll cs with
    | Except.error e => Except.error e
    | Except.ok _ => Except.ok cs

/-! ## Logger (src/taskmasterd/src/logger.rs) -/

/-- `MAX_MESSAGES` from src/taskmasterd/src/logger.rs. -/
def MAX_MESSAGES : Nat := 1000

/-- `BUFFER_SIZE = MAX_MESSAGES * 6 / 5` from src/taskmasterd/src/logger.rs. -/
def BUFFER_SIZE : Nat := MAX_MESSAGES * 6 / 5

/-- The trim threshold `(BUFFER_SIZE as f32 * 0.95) as usize` of
`Logger::do_log`: `1200.0 * 0.95` rounds to exactly `1140.0` in f32
(the exact product 1139.99998569… lies within half an ulp of 1140.0), so
the cast yields 1140 = BUFFER_SIZE * 95 / 100. -/
def trimThreshold : Nat := BUFFER_SIZE * 95 / 100

/-- `MONITOR_THREAD_PREFIX` from src/taskmasterd/src/logger.rs. -/
def MONITOR_THREAD_TAG : String := "MONITOR THREAD"

/-- `MONITOR_PREFIX` from src/taskmasterd/src/logger.rs. -/
def MONITOR_TAG : String := "    MONITOR   "

/-- `RESPONDER_PREFIX` from src/taskmasterd/src/logger.rs. -/
def RESPONDER_TAG : String := "   RESPONDER  "

/-- `GLOBAL_PREFIX` from src/taskmasterd/src/logger.rs. -/
def GLOBAL_TAG : String := "  RUSTMASTER  "

/-- `HTTP_LOGGER_PREFIX` from src/taskmasterd/src/logger.rs. -/
def HTTP_LOGGER_TAG : String := " HTTP_LOGGER  "

/-- The modulus of `usize::wrapping_add` (64-bit platform). -/
def USIZE_MOD : Nat := 2 ^ 64

/-- The line `Logger::do_log` formats:
`format!("[{prefix}]: {}{:?}\n", timestamp, message.trim())`. -/
def mkLogMsg (tag ts message : String) : String :=
  "[" ++ tag ++ "]: " ++ ts ++ rustDebugStr message.trim ++ "\n"

/-- The `Logger` state that the history claims concern: the in-memory
`history` ring, the wrapping entry counter `idx`, and whether
`http_log_stream` is `Some`.  The log file and the TCP stream contents are
external effects. -/
structure Logger where
  history : List (Nat × String)
  idx : Nat
  httpStream : Bool
deriving DecidableEq, Repr

/-- The freshly constructed `Logger` (`Logger::new`): empty history, `idx`
0; `http_log_stream` starts as `None` but `enable_http_logging` may set it,
so theorems quantify over it via `initHttp`. -/
def Logger.init (initHttp : Bool) : Logger where
  history := []
  idx := 0
  httpStream := initHttp

/-- The history insertion of `Logger::do_log`: push the entry at the back;
if the length then exceeds the trim threshold, `drain(..(len - MAX_MESSAGES))`
removes the front (oldest) entries, leaving exactly `MAX_MESSAGES`. -/
def pushHistory (hist : List (Nat × String)) (entry : Nat × String) : List (Nat × String) :=
  if trimThreshold < (hist ++ [entry]).length then
    (hist ++ [entry]).drop ((hist ++ [entry]).length - MAX_MESSAGES)
  else hist ++ [entry]

/-- Increment `idx` (wrapping) and insert a formatted line into the
history. -/
def Logger.insertHistory (l : Logger) (entry : String) : Logger :=
  let ni := (l.idx + 1) % USIZE_MOD
  { l with idx := ni, history := pushHistory l.history (ni, entry) }

/-- One `Logger::do_log` invocation: the prefix and message, the timestamp
the call observes, and the outcome of the `write_all` on the HTTP stream
(consulted only when that stream is in use). -/
structure LogCall where
  tag : String
  message : String
  ts : String
  httpWriteOk : Bool
  httpErr : String

/-- The history-insertion half of `Logger::do_log`: insert the formatted
line into the in-memory history unless the prefix is the responder's. -/
def Logger.afterHistoryInsert (l : Logger) (c : LogCall) : Logger :=
  if c.tag ≠ RESPONDER_TAG then l.insertHistory (mkLogMsg c.tag c.ts c.message)
  else l

/-- `Logger::do_log` from src/taskmasterd/src/logger.rs: print and write to
the log file (external effects); insert into the in-memory history unless
the prefix is the responder's; then, unless the prefix is the HTTP
logger's, forward over the HTTP stream when one is connected — a failed
write there performs a nested `do_log` with the HTTP-logger prefix (which
inserts into the history and does not forward again) and drops the
stream. -/
def Logger.do_log (l : Logger) (c : LogCall) : Logger :=
  if c.tag ≠ HTTP_LOGGER_TAG then
    if (l.afterHistoryInsert c).httpStream then
      if c.httpWriteOk then l.afterHistoryInsert c
      else
        { (l.afterHistoryInsert c).insertHistory
            (mkLogMsg HTTP_LOGGER_TAG c.ts
              ("Can't write log via http: " ++ c.httpErr ++ ", disabling...")) with
          httpStream := false }
    else l.afterHistoryInsert c
  else l.afterHistoryInsert c

/-- The logger after a sequence of `do_log` calls from a fresh state. -/
def runLogger (initHttp : Bool) (calls : List LogCall) : Logger :=
  calls.foldl Logger.do_log (Logger.init initHttp)

/-! ## Predicates and concrete inputs used by the theorems -/

/-- The strengthened invariant actually maintained by the Task operations
when `run` is only invoked handle-free: either no handle and a state other
than STARTING/RUNNING, or a handle and state STARTING. -/
def taskStrongInv (t : Task) : Prop :=
  (t.child = none ∧ t.state ≠ State.STARTING ∧ t.state ≠ State.RUNNING) ∨
  ((∃ c, t.child = some c) ∧ t.state = State.STARTING)

/-- A configuration violating one of the three validated constraints:
empty command, replica count below 1, or mask bits outside 0o777. -/
def violatesField (c : Configuration) : Prop :=
  c.cmd = "" ∨ c.num_procs = 0 ∨ ¬ (c.umask &&& 0o777 = c.umask)

/-- The logger-history invariant: the in-memory history never exceeds the
trim threshold, and every stored entry is a line formatted with a
non-responder prefix (responder-channel messages are never stored). -/
def loggerHistoryOk (l : Logger) : Prop :=
  l.history.length ≤ trimThreshold ∧
  ∀ p ∈ l.history, ∃ tag ts msg, p.2 = mkLogMsg tag ts msg ∧ tag ≠ RESPONDER_TAG

/-- A configuration with a stderr redirection target (used by the concrete
executions below). -/
def cfgWithStderr : Configuration :=
  { Configuration.default with cmd := "sleep 1", stderr := some "/tmp/task.err" }

/-- A run whose stream opens and spawn all succeed. -/
def envAllOk : RunEnv where
  stderrOpen := Except.ok ()
  stdoutOpen := Except.ok ()
  spawn := Except.ok 7

/-- A run whose stderr open fails. -/
def envBadStderr : RunEnv where
  stderrOpen := Except.error "open failed"
  stdoutOpen := Except.ok ()
  spawn := Except.ok 8

/-- A run whose spawn fails with an OS error. -/
def envBadSpawn : RunEnv where
  stderrOpen := Except.ok ()
  stdoutOpen := Except.ok ()
  spawn := Except.error "No such file or directory (os error 2)"

/-- A concrete decoder standing in for serde_json in witnesses: accepts
exactly the JSON text of `Shutdown`. -/
def decodeShutdownOnly (s : String) : Except String DAction :=
  if s = "\"Shutdown\"" then Except.ok DAction.Shutdown
  else Except.error "expected value"

/-- A concrete Monitor answer function for witnesses. -/
def answerConst (_a : DAction) : String :=
  "ok"

/-- A task record whose replica count is 0 (and nothing else wrong). -/
def recZeroProcs : YamlTaskRecord :=
  { YamlTaskRecord.empty with cmd := some "echo hi", num_procs := some 0 }

/-- A task record whose umask has bits outside 0o777. -/
def recBadUmask : YamlTaskRecord :=
  { YamlTaskRecord.empty with cmd := some "echo hi", umask := some "1777" }

/-- A task record providing only the command. -/
def recOnlyCmd : YamlTaskRecord :=
  { YamlTaskRecord.empty with cmd := some "only_cmd_is_present" }

/-- The configuration `recOnlyCmd` loads to: every other field at its
default. -/
def cfgOnlyCmd : Configuration :=
  { Configuration.default with cmd := "only_cmd_is_present" }

/-! ## Theorems -/

/-- C2: `Task::stop` has an empty body — it returns the Task unchanged.
No stop signal is sent, no grace period is awaited, the handle is not
released, and the state never becomes STOPPED, contradicting the claimed
stop protocol. -/
theorem stop_leaves_task_unchanged (t : Task) : t.stop = t :=
  rfl

/-- C6 (counterexample): the client can construct `Start(None)` — start
all tasks — and serializes it as the object with a null payload, but the
daemon's `Start(String, Option<usize>)` tuple variant cannot decode it, so
the round trip fails. -/
theorem start_all_roundtrip_fails :
    DAction.deserialize (CAction.serialize (CAction.Start none)) = none :=
  rfl

/-- C6 (amended): serializing a client Action and deserializing it on the
daemon side yields exactly the semantically corresponding daemon action —
the round trip succeeds and preserves meaning for every variant except
`Maintail` and the name-absent (all-tasks) forms of `Start`/`Stop`, which
have no daemon counterpart and fail to decode. -/
theorem action_roundtrip_matches_semantics (a : CAction) :
    DAction.deserialize (CAction.serialize a) = a.toDaemon := by
  cases a with
  | Config s => rfl
  | Maintail o => cases o <;> rfl
  | Update o => cases o <;> rfl
  | Status o => cases o <;> rfl
  | Start t => rcases t with _ | ⟨n, _ | i⟩ <;> rfl
  | Stop t => rcases t with _ | ⟨n, _ | i⟩ <;> rfl
  | Shutdown => rfl

/-- The trace of `n + 1` consecutive premature exits starting in STARTING
with `n` retries left: `n` BACKOFF–STARTING cycles, then FATAL. -/
theorem failuresTrace_closed (n : Nat) :
    failuresTrace { state := State.STARTING, restarts_left := n } (n + 1) =
      (List.replicate n [State.BACKOFF, State.STARTING]).flatten ++ [State.FATAL] := by
  induction n with
  | zero => rfl
  | succ k ih =>
    have hpe : onPrematureExit { state := State.STARTING, restarts_left := k + 1 } =
        ({ state := State.STARTING, restarts_left := k },
         [State.BACKOFF, State.STARTING]) := by
      simp [onPrematureExit]
    have hstep : failuresTrace { state := State.STARTING, restarts_left := k + 1 } (k + 1 + 1) =
        (onPrematureExit { state := State.STARTING, restarts_left := k + 1 }).2 ++
          failuresTrace (onPrematureExit { state := State.STARTING, restarts_left := k + 1 }).1
            (k + 1) := rfl
    rw [hstep, hpe, ih, List.replicate_succ]
    simp

/-- C3 (spec-modelled: the Monitor owning the retry loop is not among the
sources; `_restarts_left` is never mutated by them): a task with retry
budget `n` that keeps exiting prematurely passes through exactly `n`
BACKOFF–STARTING cycles and then reaches FATAL; with budget 0 the first
premature exit is FATAL; a start that stays up through min-uptime resets
the budget to the spec's value. -/
theorem retry_budget_exhaustion (n specBudget : Nat) (t : MTask) :
    failuresTrace { state := State.STARTING, restarts_left := n } (n + 1) =
      (List.replicate n [State.BACKOFF, State.STARTING]).flatten ++ [State.FATAL] ∧
    onPrematureExit { state := State.STARTING, restarts_left := 0 } =
      ({ state := State.FATAL, restarts_left := 0 }, [State.FATAL]) ∧
    (onStayedUp specBudget t).restarts_left = specBudget :=
  ⟨failuresTrace_closed n, rfl, rfl⟩

/-- C4: if the OS refuses to spawn the child during `run` (both stream
setups having succeeded), the state becomes FATAL, the child slot is
unchanged (no handle installed), the OS reason is returned as the error,
the retry budget is untouched, and a subsequent `stop` does not leave
FATAL. -/
theorem spawn_failure_goes_fatal (t : Task) (env : RunEnv) (err : String)
    {sa sb : Stdio}
    (h1 : Task.setup_stream env.stderrOpen t.configuration.stderr = Except.ok sa)
    (h2 : Task.setup_stream env.stdoutOpen t.configuration.stdout = Except.ok sb)
    (hsp : env.spawn = Except.error err) :
    (t.run env).1.state = State.FATAL ∧
    (t.run env).1.child = t.child ∧
    (t.run env).2 = Except.error err ∧
    (t.run env).1.restarts_left = t.restarts_left ∧
    (Task.stop (t.run env).1).state = State.FATAL := by
  unfold Task.run
  rw [h1, h2]
  simp [Task.setup_child_process, hsp, Task.stop]

/-- Witness for C4: a default-configured Task whose spawn fails. -/
theorem spawn_failure_goes_fatal_witness :
    ((Task.new Configuration.default).run envBadSpawn).1.state = State.FATAL ∧
    ((Task.new Configuration.default).run envBadSpawn).1.child =
      (Task.new Configuration.default).child ∧
    ((Task.new Configuration.default).run envBadSpawn).2 =
      Except.error "No such file or directory (os error 2)" ∧
    ((Task.new Configuration.default).run envBadSpawn).1.restarts_left =
      (Task.new Configuration.default).restarts_left ∧
    (Task.stop ((Task.new Configuration.default).run envBadSpawn).1).state = State.FATAL :=
  spawn_failure_goes_fatal _ _ _ rfl rfl rfl

/-- C9: if the stderr stream setup fails, or it succeeds and the stdout
stream setup fails, `run` sets FATAL and returns the open error, the child
slot is unchanged, and no spawn is attempted — the outcome is independent
of the spawn result. -/
theorem stream_open_failure_goes_fatal (t : Task) (env : RunEnv) (e : String)
    (h : Task.setup_stream env.stderrOpen t.configuration.stderr = Except.error e ∨
      ((∃ sa, Task.setup_stream env.stderrOpen t.configuration.stderr = Except.ok sa) ∧
        Task.setup_stream env.stdoutOpen t.configuration.stdout = Except.error e)) :
    (t.run env).1.state = State.FATAL ∧
    (t.run env).1.child = t.child ∧
    (t.run env).2 = Except.error e ∧
    ∀ sp, t.run { env with spawn := sp } = t.run env := by
  rcases h with h1 | ⟨⟨sa, h1⟩, h2⟩
  · refine ⟨?_, ?_, ?_, ?_⟩ <;> simp [Task.run, h1]
  · refine ⟨?_, ?_, ?_, ?_⟩ <;> simp [Task.run, h1, h2]

/-- Witness for C9: a Task configured with a stderr file whose open
fails. -/
theorem stream_open_failure_goes_fatal_witness :
    ((Task.new cfgWithStderr).run envBadStderr).1.state = State.FATAL ∧
    ((Task.new cfgWithStderr).run envBadStderr).1.child = (Task.new cfgWithStderr).child ∧
    ((Task.new cfgWithStderr).run envBadStderr).2 = Except.error "open failed" ∧
    (∀ sp, (Task.new cfgWithStderr).run { envBadStderr with spawn := sp } =
      (Task.new cfgWithStderr).run envBadStderr) :=
  stream_open_failure_goes_fatal _ _ _ (Or.inl rfl)

/-- C5: a received payload that does not decode to an Action is answered
with the fixed unknown-action reply, the listen loop continues past it,
and a subsequent valid request is decoded and served normally. -/
theorem malformed_request_survives (decode : String → Except String DAction)
    (answer : DAction → String) (bad e : String)
    (hbad : decode bad = Except.error e) (hlen : ¬ bad.length = 0) :
    handle_message decode answer bad = unknownActionAnswer ∧
    (∀ incoming, listen decode answer (StreamEvent.accepted (Except.ok bad) :: incoming) =
      unknownActionAnswer :: listen decode answer incoming) ∧
    (∀ good a, decode good = Except.ok a → ¬ good.length = 0 →
      listen decode answer
        [StreamEvent.accepted (Except.ok bad), StreamEvent.accepted (Except.ok good)] =
        [unknownActionAnswer, answer a]) := by
  refine ⟨?_, ?_, ?_⟩
  · simp [handle_message, hbad]
  · intro incoming
    simp [listen, handle_message, hbad, hlen]
  · intro good a hg hgl
    simp [listen, handle_message, hbad, hlen, hg, hgl]

/-- Witness for C5: a concrete decoder refusing "garbage" and then serving
the Shutdown request. -/
theorem malformed_request_survives_witness :
    handle_message decodeShutdownOnly answerConst "garbage" = unknownActionAnswer ∧
    listen decodeShutdownOnly answerConst
      [StreamEvent.accepted (Except.ok "garbage"),
       StreamEvent.accepted (Except.ok "\"Shutdown\"")] =
      [unknownActionAnswer, answerConst DAction.Shutdown] := by
  have h := malformed_request_survives decodeShutdownOnly answerConst "garbage"
    "expected value" rfl (by decide)
  exact ⟨h.1, h.2.2 "\"Shutdown\"" DAction.Shutdown rfl (by decide)⟩

/-- C8: a task record omitting the optional fields loads with accepted
exit codes [0], retry budget 3, minimum uptime 1 second, stop signal TERM,
stop grace period 10 seconds, and absent stdout/stderr targets. -/
theorem omitted_fields_take_defaults (r : YamlTaskRecord) (c : Configuration)
    (hec : r.exit_codes = none) (hsr : r.start_retries = none)
    (hst : r.start_time = none) (hss : r.stop_signal = none)
    (hstp : r.stop_time = none) (hso : r.stdout = none) (hse : r.stderr = none)
    (h : deserializeConfiguration r = Except.ok c) :
    c.exit_codes = [0] ∧ c.start_retries = 3 ∧ c.start_time = 1 ∧
    c.stop_signal = StopSignal.TERM ∧ c.stop_time = 10 ∧
    c.stdout = none ∧ c.stderr = none := by
  unfold deserializeConfiguration at h
  split at h
  · split at h
    · injection h with h
      subst h
      simp [deserializeConfiguration.deserializeWith, hec, hsr, hst, hss, hstp,
        hso, hse, Configuration.default]
    · cases h
  · injection h with h
    subst h
    simp [deserializeConfiguration.deserializeWith, hec, hsr, hst, hss, hstp,
      hso, hse, Configuration.default]

/-- Witness for C8: the record carrying only `cmd` loads to the default
values. -/
theorem omitted_fields_take_defaults_witness :
    cfgOnlyCmd.exit_codes = [0] ∧ cfgOnlyCmd.start_retries = 3 ∧
    cfgOnlyCmd.start_time = 1 ∧ cfgOnlyCmd.stop_signal = StopSignal.TERM ∧
    cfgOnlyCmd.stop_time = 10 ∧ cfgOnlyCmd.stdout = none ∧ cfgOnlyCmd.stderr = none :=
  omitted_fields_take_defaults recOnlyCmd cfgOnlyCmd rfl rfl rfl rfl rfl rfl rfl rfl

/-- C1 (counterexample): after a successful run (handle installed, state
STARTING), a second run whose stderr open fails sets FATAL but leaves the
stale handle in place — a live handle in a state other than
STARTING/RUNNING. -/
theorem handle_state_invariant_counterexample :
    ¬ handleStateInv (Task.applyOps (Task.new cfgWithStderr)
      [TaskOp.run envAllOk, TaskOp.run envBadStderr]) := by
  decide

/-- A freshly constructed Task satisfies the strengthened invariant. -/
theorem taskStrongInv_new (cfg : Configuration) : taskStrongInv (Task.new cfg) :=
  Or.inl ⟨rfl, by simp [Task.new], by simp [Task.new]⟩

/-- `run` on a handle-free Task re-establishes the strengthened
invariant, whatever the OS outcomes. -/
theorem taskStrongInv_run (t : Task) (env : RunEnv) (hchild : t.child = none) :
    taskStrongInv (t.run env).1 := by
  unfold Task.run
  split
  · exact Or.inl ⟨hchild, by simp, by simp⟩
  · split
    · exact Or.inl ⟨hchild, by simp, by simp⟩
    · unfold Task.setup_child_process
      split
      · exact Or.inr ⟨⟨_, rfl⟩, rfl⟩
      · exact Or.inl ⟨hchild, by simp, by simp⟩

/-- The strengthened invariant is carried through any sequence of public
operations in which `run` is only invoked handle-free. -/
theorem taskStrongInv_ops (ops : List TaskOp) (t : Task)
    (hinv : taskStrongInv t) (hsafe : safeRun t ops = true) :
    taskStrongInv (Task.applyOps t ops) := by
  induction ops generalizing t with
  | nil => exact hinv
  | cons op rest ih =>
    rw [safeRun.eq_def, Bool.and_eq_true] at hsafe
    obtain ⟨hg, hrest⟩ := hsafe
    have hstep : taskStrongInv (t.applyOp op) := by
      cases op with
      | stop => exact hinv
      | run env =>
        have hn : t.child.isNone = true := hg
        exact taskStrongInv_run t env (Option.isNone_iff_eq_none.mp hn)
    exact ih (t.applyOp op) hstep hrest

/-- The strengthened invariant implies the claimed handle/state
invariant. -/
theorem taskStrongInv_handle (t : Task) (h : taskStrongInv t) : handleStateInv t := by
  rcases h with ⟨hc, hs1, hs2⟩ | ⟨⟨c, hc⟩, hs⟩
  · constructor
    · intro hsome
      rw [hc] at hsome
      cases hsome
    · intro hor
      rcases hor with h | h
      · exact absurd h hs1
      · exact absurd h hs2
  · constructor
    · intro _
      exact Or.inl hs
    · intro _
      rw [hc]
      rfl

/-- C1 (amended): provided `run` is only ever invoked on a Task with no
live handle — as the spec's own stop-before-restart protocol prescribes —
the invariant holds after every sequence of the public operations
(`Task::new`, `run`, `stop`): a live OS child handle is present iff the
State is STARTING or RUNNING (these operations in fact never reach
RUNNING, so the handle is present exactly in STARTING). -/
theorem handle_state_invariant_safe (cfg : Configuration) (ops : List TaskOp)
    (hsafe : safeRun (Task.new cfg) ops = true) :
    handleStateInv (Task.applyOps (Task.new cfg) ops) :=
  taskStrongInv_handle _ (taskStrongInv_ops ops _ (taskStrongInv_new cfg) hsafe)

/-- Witness for C1 (amended): a successful run followed by a stop, the
run invoked handle-free. -/
theorem handle_state_invariant_safe_witness :
    safeRun (Task.new cfgWithStderr) [TaskOp.run envAllOk, TaskOp.stop] = true ∧
    handleStateInv (Task.applyOps (Task.new cfgWithStderr)
      [TaskOp.run envAllOk, TaskOp.stop]) :=
  ⟨by decide, handle_state_invariant_safe _ _ (by decide)⟩

/-- The history insertion keeps the length within the trim threshold. -/
theorem pushHistory_length_le (hist : List (Nat × String)) (entry : Nat × String)
    (h : hist.length ≤ trimThreshold) :
    (pushHistory hist entry).length ≤ trimThreshold := by
  have ht : trimThreshold = 1140 := rfl
  rw [ht] at h ⊢
  unfold pushHistory
  rw [ht, show MAX_MESSAGES = 1000 from rfl]
  split
  · simp only [List.length_drop, List.length_append, List.length_cons, List.length_nil]
    omega
  · rename_i hc
    simp only [not_lt, List.length_append, List.length_cons, List.length_nil] at hc
    simp only [List.length_append, List.length_cons, List.length_nil]
    omega

/-- Every entry of the history after an insertion was already present or is
the inserted entry. -/
theorem pushHistory_mem (hist : List (Nat × String)) (entry p : Nat × String)
    (hp : p ∈ pushHistory hist entry) : p ∈ hist ∨ p = entry := by
  unfold pushHistory at hp
  split at hp
  · have hsub : p ∈ hist ++ [entry] := (List.drop_suffix _ _).subset hp
    simpa using hsub
  · simpa using hp

/-- Inserting a line formatted with a non-responder prefix preserves the
logger-history invariant. -/
theorem insertHistory_preserves (l : Logger) (tag ts msg : String)
    (htag : tag ≠ RESPONDER_TAG) (h : loggerHistoryOk l) :
    loggerHistoryOk (l.insertHistory (mkLogMsg tag ts msg)) := by
  obtain ⟨hlen, hmem⟩ := h
  refine ⟨pushHistory_length_le _ _ hlen, ?_⟩
  intro p hp
  rcases pushHistory_mem _ _ _ hp with hold | hnew
  · exact hmem p hold
  · exact ⟨tag, ts, msg, by rw [hnew], htag⟩

/-- One `do_log` call preserves the logger-history invariant. -/
theorem do_log_preserves (l : Logger) (c : LogCall) (h : loggerHistoryOk l) :
    loggerHistoryOk (l.do_log c) := by
  have h1 : loggerHistoryOk (l.afterHistoryInsert c) := by
    unfold Logger.afterHistoryInsert
    split
    · rename_i htag
      exact insertHistory_preserves l _ _ _ htag h
    · exact h
  unfold Logger.do_log
  split
  · split
    · split
      · exact h1
      · exact insertHistory_preserves (l.afterHistoryInsert c) _ _ _ (by decide) h1
    · exact h1
  · exact h1

/-- The logger-history invariant holds after any sequence of `do_log`
calls from a fresh logger. -/
theorem runLogger_ok (initHttp : Bool) (calls : List LogCall) :
    loggerHistoryOk (runLogger initHttp calls) := by
  have hgen : ∀ (cs : List LogCall) (l : Logger), loggerHistoryOk l →
      loggerHistoryOk (cs.foldl Logger.do_log l) := by
    intro cs
    induction cs with
    | nil => intro l h; exact h
    | cons c rest ih =>
      intro l h
      exact ih _ (do_log_preserves l c h)
  refine hgen calls _ ⟨by simp [Logger.init], ?_⟩
  intro p hp
  simp [Logger.init] at hp

/-- C10: across every sequence of `do_log` calls the in-memory history
never exceeds 1140 entries (95% of the 1200-entry buffer); an insertion
that pushes past that bound is trimmed oldest-first (dropped from the
front) down to exactly 1000 entries; and every stored entry is a line
formatted with a non-responder prefix — responder-channel messages are
never stored in the history. -/
theorem logger_history_bounded :
    (∀ initHttp calls, (runLogger initHttp calls).history.length ≤ trimThreshold) ∧
    (∀ hist entry, trimThreshold ≤ hist.length →
      (pushHistory hist entry).length = MAX_MESSAGES ∧
      pushHistory hist entry = (hist ++ [entry]).drop (hist.length + 1 - MAX_MESSAGES)) ∧
    (∀ initHttp calls p, p ∈ (runLogger initHttp calls).history →
      ∃ tag ts msg, p.2 = mkLogMsg tag ts msg ∧ tag ≠ RESPONDER_TAG) := by
  refine ⟨fun i cs => (runLogger_ok i cs).1, ?_,
    fun i cs p hp => (runLogger_ok i cs).2 p hp⟩
  intro hist entry hge
  rw [show trimThreshold = 1140 from rfl] at hge
  unfold pushHistory
  rw [show trimThreshold = 1140 from rfl, show MAX_MESSAGES = 1000 from rfl]
  have hc : (1140 : Nat) < (hist ++ [entry]).length := by
    simp only [List.length_append, List.length_cons, List.length_nil]
    omega
  rw [if_pos hc]
  refine ⟨?_, ?_⟩
  · simp only [List.length_drop, List.length_append, List.length_cons, List.length_nil]
    omega
  · have hlen : (hist ++ [entry]).length = hist.length + 1 := by
      simp only [List.length_append, List.length_cons, List.length_nil]
    rw [hlen]

set_option maxRecDepth 4096 in
/-- Witness for C10: at the threshold, inserting one more entry trims the
history down to exactly `MAX_MESSAGES`. -/
theorem logger_history_bounded_witness :
    (pushHistory (List.replicate trimThreshold ((0 : Nat), "")) ((1 : Nat), "x")).length =
      MAX_MESSAGES :=
  (logger_history_bounded.2.1 (List.replicate trimThreshold (0, "")) (1, "x")
    (List.length_replicate _ _).ge).1

/-- A configuration violating one of the validated constraints never
validates cleanly. -/
theorem validate_ne_nil_of_violation (c : Configuration) (h : violatesField c) :
    c.validate ≠ [] := by
  intro hnil
  rcases h with h | h | h
  · have hlt : c.cmd.length < 1 := by rw [h]; decide
    simp [Configuration.validate, hlt] at hnil
  · have hlt : c.num_procs < 1 := by omega
    simp [Configuration.validate, hlt] at hnil
  · simp [Configuration.validate, validate_umask, h] at hnil

/-- A successful whole-document deserialization deserializes every
record. -/
theorem deserializeAll_ok_mem (tasks : List (String × YamlTaskRecord))
    (cs : List (String × Configuration)) (h : deserializeAll tasks = Except.ok cs)
    (k : String) (r : YamlTaskRecord) (hm : (k, r) ∈ tasks) :
    ∃ c, deserializeConfiguration r = Except.ok c ∧ (k, c) ∈ cs := by
  induction tasks generalizing cs with
  | nil => cases hm
  | cons hd tl ih =>
    obtain ⟨hk, hr⟩ := hd
    unfold deserializeAll at h
    split at h
    · cases h
    · rename_i c hdc
      split at h
      · cases h
      · rename_i cs' hrest
        injection h with h
        subst h
        rcases List.mem_cons.mp hm with heq | htl
        · injection heq with h1 h2
          subst h1
          subst h2
          exact ⟨c, hdc, List.mem_cons_self _ _⟩
        · obtain ⟨c0, hc0, hmem⟩ := ih cs' hrest htl
          exact ⟨c0, hc0, List.mem_cons_of_mem _ hmem⟩

/-- A validation pass that succeeds validates every member cleanly. -/
theorem validateAll_ok_mem (cs : List (String × Configuration))
    (h : validateAll cs = Except.ok ()) (k : String) (c : Configuration)
    (hm : (k, c) ∈ cs) : c.validate = [] := by
  induction cs with
  | nil => cases hm
  | cons hd tl ih =>
    obtain ⟨hk, hc⟩ := hd
    unfold validateAll at h
    split at h
    · rename_i hnil
      rcases List.mem_cons.mp hm with heq | htl
      · injection heq with h1 h2
        subst h1
        subst h2
        exact hnil
      · exact ih h htl
    · cases h

/-- `from_yml` after a successful deserialization is the validation pass's
verdict. -/
theorem from_yml_eq (tasks : List (String × YamlTaskRecord))
    (cs : List (String × Configuration)) (h : deserializeAll tasks = Except.ok cs) :
    from_yml tasks =
      match validateAll cs with
      | Except.error e => Except.error e
      | Except.ok _ => Except.ok cs := by
  unfold from_yml
  rw [h]

/-- C7 (counterexample): a task whose replica count is 0 aborts the load,
but the error is the validator's bare code "range": it names the task and
not the failing field (neither num_procs nor replica occurs in it). -/
theorem replica_error_lacks_field_name :
    from_yml [("task1", recZeroProcs)] = Except.error "task1: \"range\"" ∧
    ¬ ("num_procs".toList <:+: "task1: \"range\"".toList) ∧
    ¬ ("replica".toList <:+: "task1: \"range\"".toList) :=
  ⟨rfl, by decide, by decide⟩

/-- C7 (amended): a task record with an empty (or all-whitespace, since
the command is trimmed on load) command, a replica count below 1, or a
mask with bits outside 0o777 aborts loading the whole set — no partial
mapping is returned — with a message naming the offending task; for an
empty command the message also names the cmd field, and for a bad mask
the umask field, but for a replica count below 1 it is the bare validator
code "range", which does not name the field. -/
theorem config_validation_aborts_load :
    (∀ (tasks : List (String × YamlTaskRecord)) (k : String) (r : YamlTaskRecord)
        (c : Configuration) (m : List (String × Configuration)), (k, r) ∈ tasks →
        deserializeConfiguration r = Except.ok c → violatesField c →
        from_yml tasks ≠ Except.ok m) ∧
    (∀ r c w, r.cmd = some w → deserializeConfiguration r = Except.ok c →
        c.cmd = trimString w) ∧
    (∀ k r c rest cs, deserializeConfiguration r = Except.ok c →
        deserializeAll rest = Except.ok cs →
        c.cmd = "" → 1 ≤ c.num_procs → c.umask &&& 0o777 = c.umask →
        from_yml ((k, r) :: rest) =
          Except.error (k ++ ": " ++ rustDebugStr "cmd: can't be empty")) ∧
    (∀ k r c rest cs, deserializeConfiguration r = Except.ok c →
        deserializeAll rest = Except.ok cs →
        ¬ c.cmd = "" → c.num_procs = 0 → c.umask &&& 0o777 = c.umask →
        from_yml ((k, r) :: rest) = Except.error (k ++ ": " ++ rustDebugStr "range")) ∧
    (∀ k r c rest cs, deserializeConfiguration r = Except.ok c →
        deserializeAll rest = Except.ok cs →
        ¬ c.cmd = "" → 1 ≤ c.num_procs → ¬ (c.umask &&& 0o777 = c.umask) →
        from_yml ((k, r) :: rest) =
          Except.error (k ++ ": " ++ rustDebugStr "Invalid umask")) := by
  refine ⟨?_, ?_, ?_, ?_, ?_⟩
  · intro tasks k r c m hm hdc hv hok
    unfold from_yml at hok
    split at hok
    · cases hok
    · rename_i cs hser
      split at hok
      · cases hok
      · rename_i u hval
        obtain ⟨c0, hc0, hmem⟩ := deserializeAll_ok_mem tasks cs hser k r hm
        rw [hdc] at hc0
        injection hc0 with hc0
        subst hc0
        exact validate_ne_nil_of_violation _ hv (validateAll_ok_mem cs hval k _ hmem)
  · intro r c w hw hdc
    unfold deserializeConfiguration at hdc
    split at hdc
    · split at hdc
      · injection hdc with hdc
        subst hdc
        simp [deserializeConfiguration.deserializeWith, hw]
      · cases hdc
    · injection hdc with hdc
      subst hdc
      simp [deserializeConfiguration.deserializeWith, hw]
  · intro k r c rest cs hdc hrest hcmd hnp hum
    have hser : deserializeAll ((k, r) :: rest) = Except.ok ((k, c) :: cs) := by
      unfold deserializeAll
      rw [hdc, hrest]
    have hval : c.validate =
        [("cmd", { code := "length", message := some "cmd: can't be empty" })] := by
      have hlt : c.cmd.length < 1 := by rw [hcmd]; decide
      have hnp' : ¬ (c.num_procs < 1) := by omega
      unfold Configuration.validate
      rw [if_pos hlt, if_neg hnp']
      simp [validate_umask, hum]
    have hva : validateAll ((k, c) :: cs) = Except.error (formatFieldError k
        { code := "length", message := some "cmd: can't be empty" }) := by
      unfold validateAll
      rw [hval]
    rw [from_yml_eq _ _ hser, hva]
    rfl
  · intro k r c rest cs hdc hrest hcmd hnp hum
    have hser : deserializeAll ((k, r) :: rest) = Except.ok ((k, c) :: cs) := by
      unfold deserializeAll
      rw [hdc, hrest]
    have hval : c.validate = [("num_procs", { code := "range", message := none })] := by
      have hlt : ¬ (c.cmd.length < 1) := by
        intro hc
        exact hcmd (by cases hs : c.cmd with
          | mk data => cases data with
            | nil => rfl
            | cons a as => rw [hs] at hc; simp [String.length] at hc)
      have hnp' : c.num_procs < 1 := by omega
      unfold Configuration.validate
      rw [if_neg hlt, if_pos hnp']
      simp [validate_umask, hum]
    have hva : validateAll ((k, c) :: cs) = Except.error (formatFieldError k
        { code := "range", message := none }) := by
      unfold validateAll
      rw [hval]
    rw [from_yml_eq _ _ hser, hva]
    rfl
  · intro k r c rest cs hdc hrest hcmd hnp hum
    have hser : deserializeAll ((k, r) :: rest) = Except.ok ((k, c) :: cs) := by
      unfold deserializeAll
      rw [hdc, hrest]
    have hval : c.validate = [("umask", { code := "Invalid umask", message := none })] := by
      have hlt : ¬ (c.cmd.length < 1) := by
        intro hc
        exact hcmd (by cases hs : c.cmd with
          | mk data => cases data with
            | nil => rfl
            | cons a as => rw [hs] at hc; simp [String.length] at hc)
      have hnp' : ¬ (c.num_procs < 1) := by omega
      unfold Configuration.validate
      rw [if_neg hlt, if_neg hnp']
      simp [validate_umask, hum]
    have hva : validateAll ((k, c) :: cs) = Except.error (formatFieldError k
        { code := "Invalid umask", message := none }) := by
      unfold validateAll
      rw [hval]
    rw [from_yml_eq _ _ hser, hva]
    rfl

/-- Witness for C7 (amended): a umask of 1777 aborts the load with the
message naming task and umask. -/
theorem config_validation_aborts_load_witness :
    from_yml [("task1", recBadUmask)] =
      Except.error ("task1: " ++ rustDebugStr "Invalid umask") :=
  config_validation_aborts_load.2.2.2.2 "task1" recBadUmask _ [] []
    rfl rfl (by decide) (by decide) (by decide)

end Taskmaster
